import Mathlib

/-!
Shallow embedding of `saml_reader`'s `TextReader`
(`src/saml_reader/text_reader.py`): the tiered parse attempts of
`__init__` (lines 60-93), the error/validity resolution (lines 95-132),
the input-type/source validation and acquisition (lines 45-58), and the
read-only accessors.  External collaborators (the two parser classes,
the certificate builder, the input sources) are supplied as an
environment, constrained only by the interfaces `TextReader` uses.
-/

/-- A successfully parsed SAML object as observed by `TextReader`:
`used_relaxed_parser()`, `found_any_values()` and `get_certificate()`
are the only calls `__init__` makes on it. -/
structure SamlObj where
  usedRelaxedParser : Bool
  foundAnyValues : Bool
  getCertificate : Option String
deriving DecidableEq, Repr

/-- The outcome of one `_parse_raw_data` call with a given parser class:
a parsed object, or one of the three distinguishable exceptions
(`SamlParsingError`; `SamlResponseEncryptedError` carrying its `parser`
label; `IsASamlRequest` carrying its `parser` label). -/
inductive AttemptResult where
  | success (saml : SamlObj)
  | parsingError
  | encrypted (p : String)
  | isARequest (p : String)
deriving DecidableEq, Repr

/-- Modelled from the spec: the `Certificate` handle
(`saml_reader/cert.py` is not under src/); the spec gives only the
contract `buildCertificate(bytes) -> CertificateHandle | failure`. -/
structure Certificate where
  raw : String
deriving DecidableEq, Repr

/-- The exceptions `TextReader.__init__` (or an accessor) can raise. -/
inductive InitError where
  | valueError (msg : String)
  | fileNotFound (msg : String)
  | samlParsingError
  | attributeError
deriving DecidableEq, Repr

/-- External collaborators of `TextReader`: the three input sources,
the two parser classes (as functions of input type and raw data), and
the certificate builder's success predicate. -/
structure Env where
  clip : String
  stdin : String
  fs : String → Option String
  strictParse : String → String → AttemptResult
  regexParse : String → String → AttemptResult
  certOk : String → Bool

/-- Modelled from the spec: `buildCertificate(bytes) ->
CertificateHandle | failure` (`saml_reader/cert.py` is not under src/).
Failure is modelled as `none`, which line 132's `is not None` check
turns into `certValid = false`. -/
def buildCertificate (certOk : String → Bool) (raw : String) : Option Certificate :=
  if certOk raw then some ⟨raw⟩ else none

/-- The state `TextReader.__init__` leaves behind (the spec's
DiagnosticReport).  In `saml`, `validCert` and `cert`, an outer `none`
means the Python attribute was never assigned (reading it raises
`AttributeError`); `some none` means the attribute holds Python
`None`. -/
structure Report where
  errors : List String
  validSaml : Bool
  parserUsed : String
  saml : Option (Option SamlObj)
  validCert : Option Bool
  cert : Option (Option Certificate)
deriving DecidableEq, Repr

instance {ε α : Type} [DecidableEq ε] [DecidableEq α] : DecidableEq (Except ε α)
  | .ok a, .ok b =>
      if h : a = b then .isTrue (congrArg _ h)
      else .isFalse fun hc => h (Except.ok.inj hc)
  | .ok _, .error _ => .isFalse fun hc => Except.noConfusion hc
  | .error _, .ok _ => .isFalse fun hc => Except.noConfusion hc
  | .error a, .error b =>
      if h : a = b then .isTrue (congrArg _ h)
      else .isFalse fun hc => h (Except.error.inj hc)

/-- The advisory appended when the response is encrypted (lines 100-104). -/
def encryptedMsg : String :=
  "SAML response is encrypted. Cannot parse.\nAdvise customer to update their identity provider to send an unencrypted SAML response."

/-- The advisory appended when the input is a SAML request (lines 108-111). -/
def isARequestMsg : String :=
  "The input data appears to be a SAML request instead of a SAML response.\nPlease ask the customer for the SAML response instead of the request."

/-- The message appended when no values were extracted (lines 115-118). -/
def noValuesMsg : String :=
  "Could not parse any relevant information from the input data.\nPlease make sure that your input contains SAML data."

/-- The message appended when no certificate blob is found (lines 129-131). -/
def noCertMsg : String :=
  "Could not locate certificate. Identity provider info will not be available."

/-- The fallback warning of lines 96-97, parametrised by the tier name
interpolated into the f-string. -/
def fallbackWarning (tier : String) : String :=
  "WARNING: XML parsing failed. Using fallback \x27" ++ tier ++
    "\x27 parser. Some values may not parse correctly.\n"

/-- Python truthiness of an optional string (`if raw_cert:`). -/
def pyTruthy : Option String → Bool
  | none => false
  | some s => !s.isEmpty

/-- Python's `str.lower()` as the character-wise lowercase map (the
input types compared against are plain ASCII). -/
def strToLower (s : String) : String := ⟨s.data.map Char.toLower⟩

/-- `TextReader.VALID_INPUT_TYPES`. -/
def VALID_INPUT_TYPES : List String := ["base64", "xml", "har"]

/-- `TextReader._parse_raw_data` (lines 177-200): dispatch on the input
type to the given parser class (external, via `pf`); any other type
raises `ValueError`. -/
def parseRawData (pf : String → String → AttemptResult) (inputType data : String) :
    Except InitError AttemptResult :=
  if inputType == "base64" then .ok (pf inputType data)
  else if inputType == "xml" then .ok (pf inputType data)
  else if inputType == "har" then .ok (pf inputType data)
  else .error (.valueError ("Invalid data type specified: " ++ inputType))

/-- Lines 114-132: the no-values check and the certificate step, run on
the parsed object `s` once the encrypted/request returns were not
taken.  `errs0` is the error list accumulated so far (the fallback
warning, if any); `valid1` is `_valid_saml` on entry. -/
def certStep (certOk : String → Bool) (tier : String) (s : SamlObj)
    (errs0 : List String) (valid1 : Bool) : Report :=
  let errs1 := if !s.foundAnyValues then errs0 ++ [noValuesMsg] else errs0
  let valid2 := if !s.foundAnyValues then false else valid1
  if valid2 then
    if pyTruthy s.getCertificate then
      let c := buildCertificate certOk (s.getCertificate.getD "")
      { errors := errs1, validSaml := valid2, parserUsed := tier,
        saml := some (some s), validCert := some c.isSome, cert := some c }
    else
      { errors := errs1 ++ [noCertMsg], validSaml := valid2, parserUsed := tier,
        saml := some (some s), validCert := some false, cert := some none }
  else
    { errors := errs1, validSaml := valid2, parserUsed := tier,
      saml := some (some s), validCert := some false, cert := some none }

/-- Lines 95-97: the warning list accumulated before the advisory
checks — the fallback warning when the tier used is not strict. -/
def warnList (tier : String) : List String :=
  if tier != "strict" then [fallbackWarning tier] else []

/-- Lines 95-132: the fallback warning, the encrypted/request early
returns (which leave `_valid_cert` and `_cert` unassigned), and
otherwise the no-values check and certificate step.  `saml1`, `valid1`,
`enc1`, `req1` are `_saml`, `_valid_saml`, `is_encrypted`,
`is_a_response` after the parse attempts; a `saml1` that is unset
(outer `none`) or Python `None` at line 114 raises `AttributeError`. -/
def classify (certOk : String → Bool) (tier : String) (saml1 : Option (Option SamlObj))
    (valid1 enc1 req1 : Bool) : Except InitError Report :=
  let errs0 := warnList tier
  if enc1 then
    .ok { errors := errs0 ++ [encryptedMsg], validSaml := valid1, parserUsed := tier,
          saml := saml1, validCert := none, cert := none }
  else if req1 then
    .ok { errors := errs0 ++ [isARequestMsg], validSaml := valid1, parserUsed := tier,
          saml := saml1, validCert := none, cert := none }
  else
    match saml1 with
    | some (some s) => .ok (certStep certOk tier s errs0 valid1)
    | _ => .error .attributeError

/-- Lines 82-93 followed by `classify`: if `_parser_used` is `'regex'`,
retry with `RegexSamlParser`, catching only the encrypted/request
exceptions (a `SamlParsingError` from the retry propagates to the
caller); otherwise proceed with the state from the first attempt. -/
def retryStep (env : Env) (it raw : String) (saml0 : Option (Option SamlObj))
    (valid0 : Bool) (tier : String) (enc0 req0 : Bool) : Except InitError Report :=
  if tier == "regex" then
    match parseRawData env.regexParse it raw with
    | .error e => .error e
    | .ok (.success s) => classify env.certOk tier (some (some s)) valid0 enc0 req0
    | .ok .parsingError => .error .samlParsingError
    | .ok (.encrypted _) => classify env.certOk tier (some none) false true req0
    | .ok (.isARequest _) => classify env.certOk tier (some none) false enc0 true
  else classify env.certOk tier saml0 valid0 enc0 req0

/-- Lines 60-132 of `TextReader.__init__`: the first (standard-parser)
attempt with its four outcomes (lines 65-80), then the retry and the
resolution.  The five arguments of `retryStep` are `_saml` (outer
`none` = attribute not assigned), `_valid_saml`, `_parser_used`,
`is_encrypted`, `is_a_response` as left by the first attempt. -/
def resolve (env : Env) (it raw : String) : Except InitError Report :=
  match parseRawData env.strictParse it raw with
  | .error e => .error e
  | .ok (.success s) =>
      retryStep env it raw (some (some s)) true
        (if s.usedRelaxedParser then "relaxed" else "strict") false false
  | .ok .parsingError => retryStep env it raw none true "regex" false false
  | .ok (.encrypted p) => retryStep env it raw (some none) false p true false
  | .ok (.isARequest p) => retryStep env it raw (some none) false p false true

/-- `TextReader.__init__` (lines 45-132): lowercase and validate the
declared input type, acquire the raw data from the declared source
(`_read_clipboard` / `_read_stdin` / `_read_file`, lines 134-175), then
resolve.  A missing file raises `FileNotFoundError`; an invalid type or
source raises `ValueError`. -/
def textReaderInit (env : Env) (source inputType filename : String) :
    Except InitError Report :=
  let it := strToLower inputType
  if !VALID_INPUT_TYPES.contains it then
    .error (.valueError ("Invalid input type: " ++ it))
  else
    match
      (if source == "clip" then .ok env.clip
       else if source == "stdin" then .ok env.stdin
       else if source == "file" then
         match env.fs filename with
         | some d => .ok d
         | none => .error (.fileNotFound ("Cannot find file specified: " ++ filename))
       else .error (.valueError ("Invalid source: " ++ source)) :
        Except InitError String) with
    | .error e => .error e
    | .ok rawData => resolve env it rawData

/-- `TextReader.get_saml` (line 210): reading the `_saml` attribute. -/
def get_saml (r : Report) : Except InitError (Option SamlObj) :=
  match r.saml with
  | some x => .ok x
  | none => .error .attributeError

/-- `TextReader.get_certificate` (line 220): reading `_cert`. -/
def get_certificate (r : Report) : Except InitError (Option Certificate) :=
  match r.cert with
  | some x => .ok x
  | none => .error .attributeError

/-- `TextReader.saml_is_valid` (line 230): `_valid_saml` is assigned on
every completed `__init__`, so this never raises. -/
def saml_is_valid (r : Report) : Bool := r.validSaml

/-- `TextReader.cert_is_valid` (line 240): reading `_valid_cert`, which
the encrypted/request early returns leave unassigned. -/
def cert_is_valid (r : Report) : Except InitError Bool :=
  match r.validCert with
  | some b => .ok b
  | none => .error .attributeError

/-- `TextReader.get_errors` (line 251). -/
def get_errors (r : Report) : List String := r.errors

/-! ### Basic facts about the embedding -/

theorem mem_VALID_iff {it : String} :
    it ∈ VALID_INPUT_TYPES ↔ it = "base64" ∨ it = "xml" ∨ it = "har" := by
  simp [VALID_INPUT_TYPES]

theorem parseRawData_eq_ok (pf : String → String → AttemptResult) {it : String}
    (d : String) (h : it ∈ VALID_INPUT_TYPES) :
    parseRawData pf it d = .ok (pf it d) := by
  rcases mem_VALID_iff.mp h with h | h | h <;> subst h <;> rfl

theorem fallbackWarning_head (t : String) :
    (fallbackWarning t).data.head? = some 'W' := by
  have h1 : ("WARNING: XML parsing failed. Using fallback \x27" : String).data =
      'W' :: ("WARNING: XML parsing failed. Using fallback \x27" : String).data.tail := by
    decide
  rw [fallbackWarning, String.data_append, String.data_append, h1]
  rfl

theorem ne_fallbackWarning {m : String} (h : m.data.head? ≠ some 'W') (t : String) :
    m ≠ fallbackWarning t := by
  intro he
  exact h (he ▸ fallbackWarning_head t)

theorem fixedMsg_not_fallback {m : String}
    (hm : m = encryptedMsg ∨ m = isARequestMsg ∨ m = noValuesMsg ∨ m = noCertMsg)
    (t : String) : m ≠ fallbackWarning t := by
  rcases hm with h | h | h | h <;> subst h <;>
    exact ne_fallbackWarning (by decide) t

theorem certStep_cases (certOk : String → Bool) (t : String) (s : SamlObj)
    (errs0 : List String) (v : Bool) :
    (s.foundAnyValues = false ∧
      certStep certOk t s errs0 v =
        { errors := errs0 ++ [noValuesMsg], validSaml := false, parserUsed := t,
          saml := some (some s), validCert := some false, cert := some none })
  ∨ (s.foundAnyValues = true ∧ v = false ∧
      certStep certOk t s errs0 v =
        { errors := errs0, validSaml := false, parserUsed := t,
          saml := some (some s), validCert := some false, cert := some none })
  ∨ (s.foundAnyValues = true ∧ v = true ∧ pyTruthy s.getCertificate = true ∧
      certStep certOk t s errs0 v =
        { errors := errs0, validSaml := true, parserUsed := t,
          saml := some (some s),
          validCert := some (buildCertificate certOk (s.getCertificate.getD "")).isSome,
          cert := some (buildCertificate certOk (s.getCertificate.getD "")) })
  ∨ (s.foundAnyValues = true ∧ v = true ∧ pyTruthy s.getCertificate = false ∧
      certStep certOk t s errs0 v =
        { errors := errs0 ++ [noCertMsg], validSaml := true, parserUsed := t,
          saml := some (some s), validCert := some false, cert := some none }) := by
  cases hf : s.foundAnyValues with
  | false => exact Or.inl ⟨rfl, by simp [certStep, hf]⟩
  | true =>
    cases hv : v with
    | false => exact Or.inr (Or.inl ⟨rfl, rfl, by simp [certStep, hf]⟩)
    | true =>
      cases hc : pyTruthy s.getCertificate with
      | true => exact Or.inr (Or.inr (Or.inl ⟨rfl, rfl, rfl, by simp [certStep, hf, hc]⟩))
      | false => exact Or.inr (Or.inr (Or.inr ⟨rfl, rfl, rfl, by simp [certStep, hf, hc]⟩))

theorem classify_cases (certOk : String → Bool) (t : String)
    (saml1 : Option (Option SamlObj)) (v e q : Bool) :
    (e = true ∧ classify certOk t saml1 v e q =
      .ok { errors := warnList t ++ [encryptedMsg], validSaml := v, parserUsed := t,
            saml := saml1, validCert := none, cert := none })
  ∨ (e = false ∧ q = true ∧ classify certOk t saml1 v e q =
      .ok { errors := warnList t ++ [isARequestMsg], validSaml := v, parserUsed := t,
            saml := saml1, validCert := none, cert := none })
  ∨ (e = false ∧ q = false ∧ (∃ s, saml1 = some (some s) ∧
      classify certOk t saml1 v e q = .ok (certStep certOk t s (warnList t) v)))
  ∨ (e = false ∧ q = false ∧ (saml1 = none ∨ saml1 = some none) ∧
      classify certOk t saml1 v e q = .error .attributeError) := by
  cases he : e with
  | true => exact Or.inl ⟨rfl, by simp [classify]⟩
  | false =>
    cases hq : q with
    | true => exact Or.inr (Or.inl ⟨rfl, rfl, by simp [classify]⟩)
    | false =>
      match saml1 with
      | some (some s) =>
        exact Or.inr (Or.inr (Or.inl ⟨rfl, rfl, s, rfl, by simp [classify]⟩))
      | some none =>
        exact Or.inr (Or.inr (Or.inr ⟨rfl, rfl, Or.inr rfl, by simp [classify]⟩))
      | none =>
        exact Or.inr (Or.inr (Or.inr ⟨rfl, rfl, Or.inl rfl, by simp [classify]⟩))
theorem retryStep_inv {env : Env} {it raw : String} {saml0 : Option (Option SamlObj)}
    {v0 : Bool} {tier : String} {e0 q0 : Bool} {r : Report}
    (h : retryStep env it raw saml0 v0 tier e0 q0 = .ok r)
    (hv : e0 = true → v0 = false) (hq : q0 = true → v0 = false)
    (hs : saml0 = some none → e0 = true ∨ q0 = true) :
    ∃ saml1 v e q, classify env.certOk tier saml1 v e q = .ok r ∧
      (e = true → v = false) ∧ (q = true → v = false) ∧
      (saml1 = some none → e = true ∨ q = true) := by
  unfold retryStep at h
  by_cases ht : (tier == "regex") = true
  · rw [if_pos ht] at h
    rcases hpr : parseRawData env.regexParse it raw with err | a
    · rw [hpr] at h; cases h
    · rw [hpr] at h
      cases a with
      | success s => exact ⟨some (some s), v0, e0, q0, h, hv, hq, by simp⟩
      | parsingError => cases h
      | encrypted p =>
        exact ⟨some none, false, true, q0, h, fun _ => rfl, fun _ => rfl,
          fun _ => Or.inl rfl⟩
      | isARequest p =>
        exact ⟨some none, false, e0, true, h, fun _ => rfl, fun _ => rfl,
          fun _ => Or.inr rfl⟩
  · rw [if_neg ht] at h
    exact ⟨saml0, v0, e0, q0, h, hv, hq, hs⟩

theorem resolve_inv {env : Env} {it raw : String} {r : Report}
    (h : resolve env it raw = .ok r) :
    ∃ tier saml1 v e q, classify env.certOk tier saml1 v e q = .ok r ∧
      (e = true → v = false) ∧ (q = true → v = false) ∧
      (saml1 = some none → e = true ∨ q = true) := by
  unfold resolve at h
  rcases hpr : parseRawData env.strictParse it raw with err | a
  · rw [hpr] at h; cases h
  · rw [hpr] at h
    cases a with
    | success s =>
      obtain ⟨saml1, v, e, q, hc, hv2, hq2, hs2⟩ :=
        retryStep_inv h (by simp) (by simp) (by simp)
      exact ⟨_, saml1, v, e, q, hc, hv2, hq2, hs2⟩
    | parsingError =>
      obtain ⟨saml1, v, e, q, hc, hv2, hq2, hs2⟩ :=
        retryStep_inv h (by simp) (by simp) (by simp)
      exact ⟨_, saml1, v, e, q, hc, hv2, hq2, hs2⟩
    | encrypted p =>
      obtain ⟨saml1, v, e, q, hc, hv2, hq2, hs2⟩ :=
        retryStep_inv h (fun _ => rfl) (fun _ => rfl) (fun _ => Or.inl rfl)
      exact ⟨_, saml1, v, e, q, hc, hv2, hq2, hs2⟩
    | isARequest p =>
      obtain ⟨saml1, v, e, q, hc, hv2, hq2, hs2⟩ :=
        retryStep_inv h (fun _ => rfl) (fun _ => rfl) (fun _ => Or.inr rfl)
      exact ⟨_, saml1, v, e, q, hc, hv2, hq2, hs2⟩

theorem textReaderInit_inv {env : Env} {source it fn : String} {r : Report}
    (h : textReaderInit env source it fn = .ok r) :
    ∃ raw, resolve env (strToLower it) raw = .ok r := by
  unfold textReaderInit at h
  by_cases hvt : (!VALID_INPUT_TYPES.contains (strToLower it)) = true
  · rw [if_pos hvt] at h; cases h
  · rw [if_neg hvt] at h
    by_cases h1 : (source == "clip") = true
    · simp only [h1, if_true] at h
      exact ⟨env.clip, h⟩
    · simp only [h1, if_false, Bool.false_eq_true] at h
      by_cases h2 : (source == "stdin") = true
      · simp only [h2, if_true] at h
        exact ⟨env.stdin, h⟩
      · simp only [h2, if_false, Bool.false_eq_true] at h
        by_cases h3 : (source == "file") = true
        · simp only [h3, if_true] at h
          rcases hfs : env.fs fn with _ | d
          · rw [hfs] at h; cases h
          · rw [hfs] at h; exact ⟨d, h⟩
        · simp only [h3, if_false, Bool.false_eq_true] at h
          cases h
theorem classify_ok_of_flag {certOk : String → Bool} {t : String}
    {saml1 : Option (Option SamlObj)} {v e q : Bool}
    (hcase : e = true ∨ q = true ∨ ∃ s, saml1 = some (some s)) :
    ∃ rep, classify certOk t saml1 v e q = .ok rep := by
  rcases classify_cases certOk t saml1 v e q with
    ⟨_, hc⟩ | ⟨_, _, hc⟩ | ⟨_, _, _, _, hc⟩ | ⟨he, hq2, hn, hc⟩
  · exact ⟨_, hc⟩
  · exact ⟨_, hc⟩
  · exact ⟨_, hc⟩
  · rcases hcase with hfl | hfl | ⟨s, hs⟩
    · rw [he] at hfl; cases hfl
    · rw [hq2] at hfl; cases hfl
    · rcases hn with hn | hn <;> rw [hn] at hs <;> simp at hs

theorem classify_not_valueError {certOk : String → Bool} {t : String}
    {saml1 : Option (Option SamlObj)} {v e q : Bool} {m : String} :
    classify certOk t saml1 v e q ≠ .error (.valueError m) := by
  intro hcon
  rcases classify_cases certOk t saml1 v e q with
    ⟨_, hc⟩ | ⟨_, _, hc⟩ | ⟨_, _, _, _, hc⟩ | ⟨_, _, _, hc⟩ <;>
    rw [hc] at hcon <;> simp at hcon

theorem retryStep_not_valueError {env : Env} {it raw : String}
    {saml0 : Option (Option SamlObj)} {v0 : Bool} {tier : String} {e0 q0 : Bool}
    {m : String} (hit : it ∈ VALID_INPUT_TYPES) :
    retryStep env it raw saml0 v0 tier e0 q0 ≠ .error (.valueError m) := by
  unfold retryStep
  by_cases ht : (tier == "regex") = true
  · rw [if_pos ht, parseRawData_eq_ok env.regexParse raw hit]
    cases env.regexParse it raw with
    | success s => exact classify_not_valueError
    | parsingError => intro hcon; simp at hcon
    | encrypted p => exact classify_not_valueError
    | isARequest p => exact classify_not_valueError
  · rw [if_neg ht]
    exact classify_not_valueError

theorem resolve_not_valueError {env : Env} {it raw : String} {m : String}
    (hit : it ∈ VALID_INPUT_TYPES) :
    resolve env it raw ≠ .error (.valueError m) := by
  unfold resolve
  rw [parseRawData_eq_ok env.strictParse raw hit]
  cases env.strictParse it raw with
  | success s => exact retryStep_not_valueError hit
  | parsingError => exact retryStep_not_valueError hit
  | encrypted p => exact retryStep_not_valueError hit
  | isARequest p => exact retryStep_not_valueError hit

theorem resolve_ok_exists {env : Env} {it : String} (raw : String)
    (hit : it ∈ VALID_INPUT_TYPES)
    (hreg : ∀ a b, env.regexParse a b ≠ .parsingError) :
    ∃ rep, resolve env it raw = .ok rep := by
  unfold resolve
  rw [parseRawData_eq_ok env.strictParse raw hit]
  cases hst : env.strictParse it raw with
  | success s =>
    show ∃ rep, retryStep env it raw (some (some s)) true
      (if s.usedRelaxedParser then "relaxed" else "strict") false false = .ok rep
    unfold retryStep
    cases hu : s.usedRelaxedParser with
    | false =>
      rw [if_neg (by decide)]
      exact classify_ok_of_flag (Or.inr (Or.inr ⟨s, rfl⟩))
    | true =>
      rw [if_neg (by decide)]
      exact classify_ok_of_flag (Or.inr (Or.inr ⟨s, rfl⟩))
  | parsingError =>
    show ∃ rep, retryStep env it raw none true "regex" false false = .ok rep
    unfold retryStep
    rw [if_pos (by decide), parseRawData_eq_ok env.regexParse raw hit]
    cases hrt : env.regexParse it raw with
    | success s2 => exact classify_ok_of_flag (Or.inr (Or.inr ⟨s2, rfl⟩))
    | parsingError => exact absurd hrt (hreg it raw)
    | encrypted p2 => exact classify_ok_of_flag (Or.inl rfl)
    | isARequest p2 => exact classify_ok_of_flag (Or.inr (Or.inl rfl))
  | encrypted p =>
    show ∃ rep, retryStep env it raw (some none) false p true false = .ok rep
    unfold retryStep
    by_cases hp : (p == "regex") = true
    · rw [if_pos hp, parseRawData_eq_ok env.regexParse raw hit]
      cases hrt : env.regexParse it raw with
      | success s2 => exact classify_ok_of_flag (Or.inl rfl)
      | parsingError => exact absurd hrt (hreg it raw)
      | encrypted p2 => exact classify_ok_of_flag (Or.inl rfl)
      | isARequest p2 => exact classify_ok_of_flag (Or.inr (Or.inl rfl))
    · rw [if_neg hp]
      exact classify_ok_of_flag (Or.inl rfl)
  | isARequest p =>
    show ∃ rep, retryStep env it raw (some none) false p false true = .ok rep
    unfold retryStep
    by_cases hp : (p == "regex") = true
    · rw [if_pos hp, parseRawData_eq_ok env.regexParse raw hit]
      cases hrt : env.regexParse it raw with
      | success s2 => exact classify_ok_of_flag (Or.inr (Or.inl rfl))
      | parsingError => exact absurd hrt (hreg it raw)
      | encrypted p2 => exact classify_ok_of_flag (Or.inl rfl)
      | isARequest p2 => exact classify_ok_of_flag (Or.inr (Or.inl rfl))
    · rw [if_neg hp]
      exact classify_ok_of_flag (Or.inr (Or.inl rfl))
theorem contains_iff {x : String} :
    VALID_INPUT_TYPES.contains x = true ↔ x ∈ VALID_INPUT_TYPES := by
  simp [VALID_INPUT_TYPES]

theorem classify_errors_shape {certOk : String → Bool} {t : String}
    {saml1 : Option (Option SamlObj)} {v e q : Bool} {r : Report}
    (h : classify certOk t saml1 v e q = .ok r) :
    r.parserUsed = t ∧
    ∃ rest, r.errors = warnList t ++ rest ∧
      ∀ m ∈ rest, m = encryptedMsg ∨ m = isARequestMsg ∨ m = noValuesMsg ∨ m = noCertMsg := by
  rcases classify_cases certOk t saml1 v e q with
    ⟨_, hc⟩ | ⟨_, _, hc⟩ | ⟨_, _, s, hs1, hc⟩ | ⟨_, _, _, hc⟩
  · rw [h] at hc
    have h2 := Except.ok.inj hc
    subst h2
    exact ⟨rfl, [encryptedMsg], rfl, by simp⟩
  · rw [h] at hc
    have h2 := Except.ok.inj hc
    subst h2
    exact ⟨rfl, [isARequestMsg], rfl, by simp⟩
  · rw [h] at hc
    have h2 := Except.ok.inj hc
    subst h2
    rcases certStep_cases certOk t s (warnList t) v with
      ⟨_, he⟩ | ⟨_, _, he⟩ | ⟨_, _, _, he⟩ | ⟨_, _, _, he⟩ <;> rw [he]
    · exact ⟨rfl, [noValuesMsg], rfl, by simp⟩
    · exact ⟨rfl, [], (List.append_nil _).symm, by simp⟩
    · exact ⟨rfl, [], (List.append_nil _).symm, by simp⟩
    · exact ⟨rfl, [noCertMsg], rfl, by simp⟩
  · rw [h] at hc
    cases hc
theorem warnList_of_ne {t : String} (ht : t ≠ "strict") :
    warnList t = [fallbackWarning t] := by
  unfold warnList
  rw [if_pos]
  simpa using ht

theorem warnList_strict : warnList "strict" = [] := rfl

theorem classify_no_values {certOk : String → Bool} {t : String} {s : SamlObj}
    {v : Bool} {r : Report} (hnv : s.foundAnyValues = false)
    (h : classify certOk t (some (some s)) v false false = .ok r) :
    noValuesMsg ∈ r.errors ∧ r.validSaml = false ∧ r.saml = some (some s) := by
  rcases classify_cases certOk t (some (some s)) v false false with
    ⟨he, _⟩ | ⟨_, hq, _⟩ | ⟨_, _, s2, hs2, hc⟩ | ⟨_, _, hn, _⟩
  · cases he
  · cases hq
  · have hss : s2 = s := by
      injection hs2 with h1
      injection h1 with h2
      exact h2.symm
    subst hss
    rw [h] at hc
    have h2 := Except.ok.inj hc
    subst h2
    rcases certStep_cases certOk t s2 (warnList t) v with
      ⟨_, he⟩ | ⟨hf, _, _⟩ | ⟨hf, _, _, _⟩ | ⟨hf, _, _, _⟩
    · rw [he]
      exact ⟨by simp, rfl, rfl⟩
    · rw [hnv] at hf; cases hf
    · rw [hnv] at hf; cases hf
    · rw [hnv] at hf; cases hf
  · rcases hn with hn | hn <;> cases hn
theorem resolve_ok_valid_type {env : Env} {it raw : String} {r : Report}
    (h : resolve env it raw = .ok r) : it ∈ VALID_INPUT_TYPES := by
  by_contra hit
  rw [mem_VALID_iff] at hit
  push_neg at hit
  obtain ⟨h1, h2, h3⟩ := hit
  unfold resolve at h
  have hpr : parseRawData env.strictParse it raw =
      .error (.valueError ("Invalid data type specified: " ++ it)) := by
    unfold parseRawData
    rw [if_neg (by simpa using h1), if_neg (by simpa using h2),
      if_neg (by simpa using h3)]
  rw [hpr] at h
  cases h

theorem resolve_strict_success {env : Env} {it raw : String} {s : SamlObj} {r : Report}
    (hst : env.strictParse it raw = .success s)
    (hu : s.usedRelaxedParser = false)
    (h : resolve env it raw = .ok r) :
    classify env.certOk "strict" (some (some s)) true false false = .ok r := by
  have hit := resolve_ok_valid_type h
  unfold resolve at h
  rw [parseRawData_eq_ok env.strictParse raw hit, hst] at h
  dsimp only at h
  rw [hu] at h
  simp only [Bool.false_eq_true, if_false] at h
  unfold retryStep at h
  rw [if_neg (by decide)] at h
  exact h
/-! ### Claims -/

/-- C2: for every input, `certValid == true` implies `samlValid == true`:
whenever construction completes and `cert_is_valid()` returns `true`,
`saml_is_valid()` returns `true`, regardless of parse outcome. -/
theorem c2_cert_valid_implies_saml_valid (env : Env) (source it fn : String)
    (r : Report) (h : textReaderInit env source it fn = .ok r)
    (hc : cert_is_valid r = .ok true) : saml_is_valid r = true := by
  obtain ⟨raw, hres⟩ := textReaderInit_inv h
  obtain ⟨tier, saml1, v, e, q, hcl, _, _, _⟩ := resolve_inv hres
  rcases classify_cases env.certOk tier saml1 v e q with
    ⟨_, hc2⟩ | ⟨_, _, hc2⟩ | ⟨_, _, s, hs1, hc2⟩ | ⟨_, _, _, hc2⟩
  · rw [hcl] at hc2
    have h2 := Except.ok.inj hc2
    subst h2
    simp [cert_is_valid] at hc
  · rw [hcl] at hc2
    have h2 := Except.ok.inj hc2
    subst h2
    simp [cert_is_valid] at hc
  · rw [hcl] at hc2
    have h2 := Except.ok.inj hc2
    subst h2
    rcases certStep_cases env.certOk tier s (warnList tier) v with
      ⟨_, he⟩ | ⟨_, _, he⟩ | ⟨_, _, _, he⟩ | ⟨_, _, _, he⟩ <;> rw [he] at hc ⊢
    · simp [cert_is_valid] at hc
    · simp [cert_is_valid] at hc
    · rfl
    · rfl
  · rw [hcl] at hc2
    cases hc2

/-- Witness for C2: a concrete run whose report has a valid certificate,
hence a valid SAML response. -/
theorem c2_witness :
    textReaderInit
      { clip := "", stdin := "", fs := fun _ => none,
        strictParse := fun _ _ => .success ⟨false, true, some "c"⟩,
        regexParse := fun _ _ => .parsingError, certOk := fun _ => true }
      "stdin" "xml" "f" =
      .ok { errors := [], validSaml := true, parserUsed := "strict",
            saml := some (some ⟨false, true, some "c"⟩), validCert := some true,
            cert := some (some ⟨"c"⟩) } ∧
    cert_is_valid { errors := [], validSaml := true, parserUsed := "strict",
                    saml := some (some ⟨false, true, some "c"⟩), validCert := some true,
                    cert := some (some ⟨"c"⟩) } = .ok true ∧
    saml_is_valid { errors := [], validSaml := true, parserUsed := "strict",
                    saml := some (some ⟨false, true, some "c"⟩), validCert := some true,
                    cert := some (some ⟨"c"⟩) } = true :=
  ⟨by decide, rfl,
    c2_cert_valid_implies_saml_valid
      { clip := "", stdin := "", fs := fun _ => none,
        strictParse := fun _ _ => .success ⟨false, true, some "c"⟩,
        regexParse := fun _ _ => .parsingError, certOk := fun _ => true }
      "stdin" "xml" "f" _ (by decide) rfl⟩
theorem resolve_success_no_values {env : Env} {it raw : String} {r : Report} {s : SamlObj}
    (h : resolve env it raw = .ok r)
    (houtcome : env.strictParse it raw = .success s ∨
      (env.strictParse it raw = .parsingError ∧ env.regexParse it raw = .success s))
    (hnv : s.foundAnyValues = false) :
    noValuesMsg ∈ r.errors ∧ r.validSaml = false ∧ r.saml = some (some s) := by
  have hit := resolve_ok_valid_type h
  rcases houtcome with hst | ⟨hst, hrt⟩
  · unfold resolve at h
    rw [parseRawData_eq_ok env.strictParse raw hit, hst] at h
    dsimp only at h
    unfold retryStep at h
    cases hu : s.usedRelaxedParser with
    | false =>
      rw [hu] at h
      simp only [Bool.false_eq_true, if_false] at h
      rw [if_neg (by decide)] at h
      exact classify_no_values hnv h
    | true =>
      rw [hu] at h
      simp only [if_true] at h
      rw [if_neg (by decide)] at h
      exact classify_no_values hnv h
  · unfold resolve at h
    rw [parseRawData_eq_ok env.strictParse raw hit, hst] at h
    dsimp only at h
    unfold retryStep at h
    rw [if_pos (by decide), parseRawData_eq_ok env.regexParse raw hit, hrt] at h
    dsimp only at h
    exact classify_no_values hnv h

/-- C6: when the parse outcome is Success (standard-parser success, or
generic strict failure followed by regex-parser success) but the parsed
object reports no extracted values, the no-relevant-data message is
appended and samlValid is set false. -/
theorem c6_no_values_invalidates (env : Env) (it raw : String) (r : Report) (s : SamlObj)
    (h : resolve env it raw = .ok r)
    (houtcome : env.strictParse it raw = .success s ∨
      (env.strictParse it raw = .parsingError ∧ env.regexParse it raw = .success s))
    (hnv : s.foundAnyValues = false) :
    noValuesMsg ∈ r.errors ∧ saml_is_valid r = false := by
  obtain ⟨h1, h2, _⟩ := resolve_success_no_values h houtcome hnv
  exact ⟨h1, h2⟩

/-- Witness for C6: a regex-tier success that extracted no values. -/
theorem c6_witness :
    resolve { clip := "", stdin := "", fs := fun _ => none,
              strictParse := fun _ _ => .parsingError,
              regexParse := fun _ _ => .success ⟨false, false, none⟩,
              certOk := fun _ => true } "xml" "d" =
      .ok { errors := [fallbackWarning "regex", noValuesMsg], validSaml := false,
            parserUsed := "regex", saml := some (some ⟨false, false, none⟩),
            validCert := some false, cert := some none } ∧
    noValuesMsg ∈ [fallbackWarning "regex", noValuesMsg] ∧
    saml_is_valid { errors := [fallbackWarning "regex", noValuesMsg], validSaml := false,
                    parserUsed := "regex", saml := some (some ⟨false, false, none⟩),
                    validCert := some false, cert := some none } = false := by
  refine ⟨by decide, ?_, ?_⟩
  have := c6_no_values_invalidates
    { clip := "", stdin := "", fs := fun _ => none,
      strictParse := fun _ _ => .parsingError,
      regexParse := fun _ _ => .success ⟨false, false, none⟩,
      certOk := fun _ => true } "xml" "d"
    { errors := [fallbackWarning "regex", noValuesMsg], validSaml := false,
      parserUsed := "regex", saml := some (some ⟨false, false, none⟩),
      validCert := some false, cert := some none }
    ⟨false, false, none⟩ (by decide) (Or.inr ⟨rfl, rfl⟩) rfl
  exact this.1
  have := c6_no_values_invalidates
    { clip := "", stdin := "", fs := fun _ => none,
      strictParse := fun _ _ => .parsingError,
      regexParse := fun _ _ => .success ⟨false, false, none⟩,
      certOk := fun _ => true } "xml" "d"
    { errors := [fallbackWarning "regex", noValuesMsg], validSaml := false,
      parserUsed := "regex", saml := some (some ⟨false, false, none⟩),
      validCert := some false, cert := some none }
    ⟨false, false, none⟩ (by decide) (Or.inr ⟨rfl, rfl⟩) rfl
  exact this.2
/-- C4: the fallback warning for the tier used is in the error list
exactly when the tier used is not strict; when present it is the first
message; and on a standard-parser success without its internal relaxed
mode the tier is strict and no fallback warning of any tier occurs. -/
theorem c4_fallback_warning_iff (env : Env) (it raw : String) (r : Report)
    (h : resolve env it raw = .ok r) :
    (fallbackWarning r.parserUsed ∈ r.errors ↔ r.parserUsed ≠ "strict")
  ∧ (r.parserUsed ≠ "strict" → r.errors.head? = some (fallbackWarning r.parserUsed))
  ∧ (r.parserUsed = "strict" → ∀ t2, fallbackWarning t2 ∉ r.errors)
  ∧ (∀ s, env.strictParse it raw = .success s → s.usedRelaxedParser = false →
      r.parserUsed = "strict") := by
  obtain ⟨tier, saml1, v, e, q, hcl, _, _, _⟩ := resolve_inv h
  obtain ⟨hpu, rest, herr, hrest⟩ := classify_errors_shape hcl
  have hnotin : r.parserUsed = "strict" → ∀ t2, fallbackWarning t2 ∉ r.errors := by
    intro hs t2 hmem
    rw [herr, ← hpu, hs, warnList_strict, List.nil_append] at hmem
    exact fixedMsg_not_fallback (hrest _ hmem) t2 rfl
  refine ⟨⟨?_, ?_⟩, ?_, hnotin, ?_⟩
  · intro hmem
    intro hs
    exact hnotin hs _ hmem
  · intro hne
    rw [herr, ← hpu, warnList_of_ne hne]
    simp
  · intro hne
    rw [herr, ← hpu, warnList_of_ne hne]
    simp
  · intro s hst hu
    have hcls := resolve_strict_success hst hu h
    exact (classify_errors_shape hcls).1

/-- Witness for C4: a regex-tier run whose first error is the regex
fallback warning. -/
theorem c4_witness :
    resolve { clip := "", stdin := "", fs := fun _ => none,
              strictParse := fun _ _ => .parsingError,
              regexParse := fun _ _ => .success ⟨false, true, some "c"⟩,
              certOk := fun _ => true } "xml" "d" =
      .ok { errors := [fallbackWarning "regex"], validSaml := true,
            parserUsed := "regex", saml := some (some ⟨false, true, some "c"⟩),
            validCert := some true, cert := some (some ⟨"c"⟩) } ∧
    List.head? (Report.errors
      { errors := [fallbackWarning "regex"], validSaml := true,
        parserUsed := "regex", saml := some (some ⟨false, true, some "c"⟩),
        validCert := some true, cert := some (some ⟨"c"⟩) }) =
      some (fallbackWarning (Report.parserUsed
        { errors := [fallbackWarning "regex"], validSaml := true,
          parserUsed := "regex", saml := some (some ⟨false, true, some "c"⟩),
          validCert := some true, cert := some (some ⟨"c"⟩) })) := by
  refine ⟨by decide, ?_⟩
  exact (c4_fallback_warning_iff
    { clip := "", stdin := "", fs := fun _ => none,
      strictParse := fun _ _ => .parsingError,
      regexParse := fun _ _ => .success ⟨false, true, some "c"⟩,
      certOk := fun _ => true } "xml" "d"
    { errors := [fallbackWarning "regex"], validSaml := true,
      parserUsed := "regex", saml := some (some ⟨false, true, some "c"⟩),
      validCert := some true, cert := some (some ⟨"c"⟩) }
    (by decide)).2.1 (by decide)
/-- C5: whenever resolution completes with samlValid true, the
certificate step ran: a truthy raw certificate blob makes certValid
record exactly whether Certificate construction succeeded (and stores
the result); an absent blob appends the could-not-locate message and
leaves certValid false. -/
theorem c5_certificate_step (env : Env) (it raw : String) (r : Report)
    (h : resolve env it raw = .ok r) (hv : saml_is_valid r = true) :
    ∃ s, r.saml = some (some s) ∧
      (pyTruthy s.getCertificate = true →
        r.validCert = some ((buildCertificate env.certOk (s.getCertificate.getD "")).isSome) ∧
        r.cert = some (buildCertificate env.certOk (s.getCertificate.getD ""))) ∧
      (pyTruthy s.getCertificate = false →
        noCertMsg ∈ r.errors ∧ r.validCert = some false ∧ r.cert = some none) := by
  obtain ⟨tier, saml1, v, e, q, hcl, hev, hqv, _⟩ := resolve_inv h
  rcases classify_cases env.certOk tier saml1 v e q with
    ⟨he, hc2⟩ | ⟨_, hq, hc2⟩ | ⟨_, _, s, hs1, hc2⟩ | ⟨_, _, _, hc2⟩
  · rw [hcl] at hc2
    have h2 := Except.ok.inj hc2
    subst h2
    simp only [saml_is_valid] at hv
    rw [hev he] at hv
    cases hv
  · rw [hcl] at hc2
    have h2 := Except.ok.inj hc2
    subst h2
    simp only [saml_is_valid] at hv
    rw [hqv hq] at hv
    cases hv
  · rw [hcl] at hc2
    have h2 := Except.ok.inj hc2
    subst h2
    rcases certStep_cases env.certOk tier s (warnList tier) v with
      ⟨_, he2⟩ | ⟨_, _, he2⟩ | ⟨_, _, hc3, he2⟩ | ⟨_, _, hc3, he2⟩
    · rw [he2] at hv
      simp [saml_is_valid] at hv
    · rw [he2] at hv
      simp [saml_is_valid] at hv
    · rw [he2]
      refine ⟨s, rfl, fun _ => ⟨rfl, rfl⟩, fun hcon => ?_⟩
      rw [hc3] at hcon
      cases hcon
    · rw [he2]
      refine ⟨s, rfl, fun hcon => ?_, fun _ => ⟨by simp, rfl, rfl⟩⟩
      rw [hc3] at hcon
      cases hcon
  · rw [hcl] at hc2
    cases hc2

/-- Witness for C5: a strict success whose object yields a certificate
blob; certValid records the construction outcome. -/
theorem c5_witness :
    resolve { clip := "", stdin := "", fs := fun _ => none,
              strictParse := fun _ _ => .success ⟨false, true, some "c"⟩,
              regexParse := fun _ _ => .parsingError,
              certOk := fun _ => true } "xml" "d" =
      .ok { errors := [], validSaml := true, parserUsed := "strict",
            saml := some (some ⟨false, true, some "c"⟩), validCert := some true,
            cert := some (some ⟨"c"⟩) } ∧
    ∃ s, Report.saml
        { errors := [], validSaml := true, parserUsed := "strict",
          saml := some (some ⟨false, true, some "c"⟩), validCert := some true,
          cert := some (some ⟨"c"⟩) } = some (some s) ∧
      (pyTruthy s.getCertificate = true →
        Report.validCert
          { errors := [], validSaml := true, parserUsed := "strict",
            saml := some (some ⟨false, true, some "c"⟩), validCert := some true,
            cert := some (some ⟨"c"⟩) } =
          some ((buildCertificate (fun _ => true) (s.getCertificate.getD "")).isSome) ∧
        Report.cert
          { errors := [], validSaml := true, parserUsed := "strict",
            saml := some (some ⟨false, true, some "c"⟩), validCert := some true,
            cert := some (some ⟨"c"⟩) } =
          some (buildCertificate (fun _ => true) (s.getCertificate.getD ""))) ∧
      (pyTruthy s.getCertificate = false →
        noCertMsg ∈ Report.errors
          { errors := [], validSaml := true, parserUsed := "strict",
            saml := some (some ⟨false, true, some "c"⟩), validCert := some true,
            cert := some (some ⟨"c"⟩) } ∧
        Report.validCert
          { errors := [], validSaml := true, parserUsed := "strict",
            saml := some (some ⟨false, true, some "c"⟩), validCert := some true,
            cert := some (some ⟨"c"⟩) } = some false ∧
        Report.cert
          { errors := [], validSaml := true, parserUsed := "strict",
            saml := some (some ⟨false, true, some "c"⟩), validCert := some true,
            cert := some (some ⟨"c"⟩) } = some none) := by
  refine ⟨by decide, ?_⟩
  exact c5_certificate_step
    { clip := "", stdin := "", fs := fun _ => none,
      strictParse := fun _ _ => .success ⟨false, true, some "c"⟩,
      regexParse := fun _ _ => .parsingError, certOk := fun _ => true }
    "xml" "d"
    { errors := [], validSaml := true, parserUsed := "strict",
      saml := some (some ⟨false, true, some "c"⟩), validCert := some true,
      cert := some (some ⟨"c"⟩) }
    (by decide) rfl
/-- C9: the report can hold a parsed object while samlValid is false
(Success outcome with no extracted values keeps the object), and the
SAML handle is Python `None` only on the encrypted-response and
is-a-request outcomes (whose advisory is then in the error list). -/
theorem c9_saml_handle_vs_validity (env : Env) (it raw : String) (r : Report)
    (h : resolve env it raw = .ok r) :
    (∀ s, (env.strictParse it raw = .success s ∨
        (env.strictParse it raw = .parsingError ∧ env.regexParse it raw = .success s)) →
      s.foundAnyValues = false →
      r.saml = some (some s) ∧ saml_is_valid r = false)
  ∧ (r.saml = some none →
      saml_is_valid r = false ∧ (encryptedMsg ∈ r.errors ∨ isARequestMsg ∈ r.errors)) := by
  constructor
  · intro s houtcome hnv
    obtain ⟨_, h2, h3⟩ := resolve_success_no_values h houtcome hnv
    exact ⟨h3, h2⟩
  · intro hn
    obtain ⟨tier, saml1, v, e, q, hcl, hev, hqv, _⟩ := resolve_inv h
    rcases classify_cases env.certOk tier saml1 v e q with
      ⟨he, hc2⟩ | ⟨_, hq, hc2⟩ | ⟨_, _, s, hs1, hc2⟩ | ⟨_, _, _, hc2⟩
    · rw [hcl] at hc2
      have h2 := Except.ok.inj hc2
      subst h2
      refine ⟨?_, Or.inl (by simp)⟩
      simp only [saml_is_valid]
      exact hev he
    · rw [hcl] at hc2
      have h2 := Except.ok.inj hc2
      subst h2
      refine ⟨?_, Or.inr (by simp)⟩
      simp only [saml_is_valid]
      exact hqv hq
    · rw [hcl] at hc2
      have h2 := Except.ok.inj hc2
      subst h2
      rcases certStep_cases env.certOk tier s (warnList tier) v with
        ⟨_, he2⟩ | ⟨_, _, he2⟩ | ⟨_, _, _, he2⟩ | ⟨_, _, _, he2⟩ <;>
        rw [he2] at hn <;> simp at hn
    · rw [hcl] at hc2
      cases hc2

/-- Witness for C9: a strict success with no extracted values keeps the
object in the report while samlValid is false. -/
theorem c9_witness :
    resolve { clip := "", stdin := "", fs := fun _ => none,
              strictParse := fun _ _ => .success ⟨false, false, some "c"⟩,
              regexParse := fun _ _ => .parsingError,
              certOk := fun _ => true } "xml" "d" =
      .ok { errors := [noValuesMsg], validSaml := false, parserUsed := "strict",
            saml := some (some ⟨false, false, some "c"⟩), validCert := some false,
            cert := some none } ∧
    Report.saml { errors := [noValuesMsg], validSaml := false, parserUsed := "strict",
                  saml := some (some ⟨false, false, some "c"⟩), validCert := some false,
                  cert := some none } = some (some ⟨false, false, some "c"⟩) ∧
    saml_is_valid { errors := [noValuesMsg], validSaml := false, parserUsed := "strict",
                    saml := some (some ⟨false, false, some "c"⟩), validCert := some false,
                    cert := some none } = false := by
  refine ⟨by decide, ?_, ?_⟩
  all_goals
    have hw := (c9_saml_handle_vs_validity
      { clip := "", stdin := "", fs := fun _ => none,
        strictParse := fun _ _ => .success ⟨false, false, some "c"⟩,
        regexParse := fun _ _ => .parsingError, certOk := fun _ => true }
      "xml" "d"
      { errors := [noValuesMsg], validSaml := false, parserUsed := "strict",
        saml := some (some ⟨false, false, some "c"⟩), validCert := some false,
        cert := some none }
      (by decide)).1 ⟨false, false, some "c"⟩ (Or.inl rfl) rfl
  · exact hw.1
  · exact hw.2
theorem contains_false_of_not_mem {x : String} (hmem : x ∉ VALID_INPUT_TYPES) :
    VALID_INPUT_TYPES.contains x = false := by
  cases hcc : VALID_INPUT_TYPES.contains x with
  | false => rfl
  | true => exact absurd (contains_iff.mp hcc) hmem

theorem textReaderInit_invalid_type {env : Env} {source it fn : String}
    (hmem : strToLower it ∉ VALID_INPUT_TYPES) :
    textReaderInit env source it fn =
      .error (.valueError ("Invalid input type: " ++ strToLower it)) := by
  unfold textReaderInit
  rw [if_pos]
  rw [contains_false_of_not_mem hmem]
  rfl

theorem textReaderInit_guard_passed {env : Env} {source it fn : String}
    (hmem : strToLower it ∈ VALID_INPUT_TYPES) :
    textReaderInit env source it fn =
      match
        (if source == "clip" then .ok env.clip
         else if source == "stdin" then .ok env.stdin
         else if source == "file" then
           match env.fs fn with
           | some d => .ok d
           | none => .error (.fileNotFound ("Cannot find file specified: " ++ fn))
         else .error (.valueError ("Invalid source: " ++ source)) :
          Except InitError String) with
      | .error e => .error e
      | .ok rawData => resolve env (strToLower it) rawData := by
  unfold textReaderInit
  rw [if_neg]
  rw [contains_iff.mpr hmem]
  decide
/-- C7: an invalid declared input type, or a missing file, raises to the
caller before any parse attempt (the outcome is the same for every
parser behaviour) and is not recorded in an error list; otherwise — for
a valid source, and granting the spec's contract that the regex parser
never raises a generic parse failure — the caller receives a report. -/
theorem c7_fatal_vs_report (env : Env) (source it fn : String) :
    (strToLower it ∉ VALID_INPUT_TYPES →
      textReaderInit env source it fn =
        .error (.valueError ("Invalid input type: " ++ strToLower it)))
  ∧ (strToLower it ∈ VALID_INPUT_TYPES → source = "file" → env.fs fn = none →
      textReaderInit env source it fn =
        .error (.fileNotFound ("Cannot find file specified: " ++ fn)))
  ∧ (strToLower it ∈ VALID_INPUT_TYPES →
      (source = "clip" ∨ source = "stdin" ∨ (source = "file" ∧ ∃ d, env.fs fn = some d)) →
      (∀ a b, env.regexParse a b ≠ .parsingError) →
      ∃ r, textReaderInit env source it fn = .ok r) := by
  refine ⟨fun hmem => textReaderInit_invalid_type hmem, ?_, ?_⟩
  · intro hmem hsrc hfs
    rw [textReaderInit_guard_passed hmem]
    subst hsrc
    rw [if_neg (by decide), if_neg (by decide), if_pos (by decide), hfs]
  · intro hmem hsrc hreg
    rw [textReaderInit_guard_passed hmem]
    rcases hsrc with hs | hs | ⟨hs, d, hd⟩
    · subst hs
      rw [if_pos (by decide)]
      exact resolve_ok_exists env.clip hmem hreg
    · subst hs
      rw [if_neg (by decide), if_pos (by decide)]
      exact resolve_ok_exists env.stdin hmem hreg
    · subst hs
      rw [if_neg (by decide), if_neg (by decide), if_pos (by decide), hd]
      exact resolve_ok_exists d hmem hreg

/-- Witness for C7: a clipboard run with a valid type and a regex parser
that never raises a generic failure yields a report. -/
theorem c7_witness :
    strToLower "XML" ∈ VALID_INPUT_TYPES ∧
    (∃ r, textReaderInit
      { clip := "x", stdin := "", fs := fun _ => none,
        strictParse := fun _ _ => .parsingError,
        regexParse := fun _ _ => .success ⟨false, true, some "c"⟩,
        certOk := fun _ => true } "clip" "XML" "f" = .ok r) :=
  ⟨by decide,
    (c7_fatal_vs_report
      { clip := "x", stdin := "", fs := fun _ => none,
        strictParse := fun _ _ => .parsingError,
        regexParse := fun _ _ => .success ⟨false, true, some "c"⟩,
        certOk := fun _ => true } "clip" "XML" "f").2.2
      (by decide) (Or.inl rfl)
      (fun a b => by
        show AttemptResult.success ⟨false, true, some "c"⟩ ≠ .parsingError
        decide)⟩
/-- C8: with a valid source, construction raises a ValueError exactly
when the lowercased declared input type is not one of base64, xml, har;
the match is case-insensitive because the type is lowercased first. -/
theorem c8_input_type_case_insensitive (env : Env) (source it fn : String)
    (hsrc : source = "clip" ∨ source = "stdin" ∨ source = "file") :
    (∃ m, textReaderInit env source it fn = .error (.valueError m)) ↔
      strToLower it ∉ VALID_INPUT_TYPES := by
  constructor
  · rintro ⟨m, hm⟩ hmem
    rw [textReaderInit_guard_passed hmem] at hm
    rcases hsrc with hs | hs | hs <;> subst hs
    · rw [if_pos (by decide)] at hm
      exact resolve_not_valueError hmem hm
    · rw [if_neg (by decide), if_pos (by decide)] at hm
      exact resolve_not_valueError hmem hm
    · rw [if_neg (by decide), if_neg (by decide), if_pos (by decide)] at hm
      rcases hfs : env.fs fn with _ | d
      · rw [hfs] at hm
        simp at hm
      · rw [hfs] at hm
        exact resolve_not_valueError hmem hm
  · intro hmem
    exact ⟨"Invalid input type: " ++ strToLower it, textReaderInit_invalid_type hmem⟩

/-- Witness for C8: `"XML"` lowercases into the valid set, so no
ValueError arises; dually the iff is evaluated at a concrete run. -/
theorem c8_witness :
    strToLower "XML" ∈ VALID_INPUT_TYPES ∧
    ((∃ m, textReaderInit
        { clip := "", stdin := "x", fs := fun _ => none,
          strictParse := fun _ _ => .success ⟨false, true, some "c"⟩,
          regexParse := fun _ _ => .parsingError,
          certOk := fun _ => true } "stdin" "XML" "f" = .error (.valueError m)) ↔
      strToLower "XML" ∉ VALID_INPUT_TYPES) :=
  ⟨by decide,
    c8_input_type_case_insensitive
      { clip := "", stdin := "x", fs := fun _ => none,
        strictParse := fun _ _ => .success ⟨false, true, some "c"⟩,
        regexParse := fun _ _ => .parsingError,
        certOk := fun _ => true } "stdin" "XML" "f" (Or.inr (Or.inl rfl))⟩
/-- C1 (code bug, evaluated): on the EncryptedResponse and IsARequest
outcomes the fixed advisory is appended, samlValid is false, and no
further rule runs — but `_valid_cert` and `_cert` are never assigned
(the early returns precede line 121), so `cert_is_valid` and
`get_certificate` raise AttributeError instead of reporting false. -/
theorem c1_advisories_leave_certValid_unassigned :
    (resolve { clip := "", stdin := "", fs := fun _ => none,
               strictParse := fun _ _ => .encrypted "strict",
               regexParse := fun _ _ => .parsingError,
               certOk := fun _ => true } "xml" "d" =
      .ok { errors := [encryptedMsg], validSaml := false, parserUsed := "strict",
            saml := some none, validCert := none, cert := none }) ∧
    (resolve { clip := "", stdin := "", fs := fun _ => none,
               strictParse := fun _ _ => .isARequest "strict",
               regexParse := fun _ _ => .parsingError,
               certOk := fun _ => true } "xml" "d" =
      .ok { errors := [isARequestMsg], validSaml := false, parserUsed := "strict",
            saml := some none, validCert := none, cert := none }) ∧
    cert_is_valid { errors := [encryptedMsg], validSaml := false, parserUsed := "strict",
                    saml := some none, validCert := none, cert := none } =
      .error .attributeError ∧
    cert_is_valid { errors := [isARequestMsg], validSaml := false, parserUsed := "strict",
                    saml := some none, validCert := none, cert := none } =
      .error .attributeError ∧
    get_certificate { errors := [encryptedMsg], validSaml := false, parserUsed := "strict",
                      saml := some none, validCert := none, cert := none } =
      .error .attributeError :=
  ⟨by decide, by decide, rfl, rfl, rfl⟩

/-- C10 (code bug, evaluated): strict generic failure then regex-tier
encrypted detection: the error list is exactly the regex fallback
warning followed by the encryption advisory, samlValid is false — but
certValid is never assigned, so `cert_is_valid` raises AttributeError
instead of reporting false. -/
theorem c10_regex_advisory_order_certValid_unassigned :
    (resolve { clip := "", stdin := "", fs := fun _ => none,
               strictParse := fun _ _ => .parsingError,
               regexParse := fun _ _ => .encrypted "regex",
               certOk := fun _ => true } "xml" "d" =
      .ok { errors := [fallbackWarning "regex", encryptedMsg], validSaml := false,
            parserUsed := "regex", saml := some none, validCert := none,
            cert := none }) ∧
    (resolve { clip := "", stdin := "", fs := fun _ => none,
               strictParse := fun _ _ => .parsingError,
               regexParse := fun _ _ => .isARequest "regex",
               certOk := fun _ => true } "xml" "d" =
      .ok { errors := [fallbackWarning "regex", isARequestMsg], validSaml := false,
            parserUsed := "regex", saml := some none, validCert := none,
            cert := none }) ∧
    cert_is_valid { errors := [fallbackWarning "regex", encryptedMsg], validSaml := false,
                    parserUsed := "regex", saml := some none, validCert := none,
                    cert := none } = .error .attributeError ∧
    cert_is_valid { errors := [fallbackWarning "regex", isARequestMsg], validSaml := false,
                    parserUsed := "regex", saml := some none, validCert := none,
                    cert := none } = .error .attributeError :=
  ⟨by decide, by decide, rfl, rfl⟩
theorem parseRawData_invalid (pf : String → String → AttemptResult) {it : String}
    (d : String) (hit : it ∉ VALID_INPUT_TYPES) :
    parseRawData pf it d =
      .error (.valueError ("Invalid data type specified: " ++ it)) := by
  rw [mem_VALID_iff] at hit
  push_neg at hit
  obtain ⟨h1, h2, h3⟩ := hit
  unfold parseRawData
  rw [if_neg (by simpa using h1), if_neg (by simpa using h2),
    if_neg (by simpa using h3)]

/-- C3 counterexample: the standard parser fails with an
encrypted-response condition whose tier label is `"regex"`; two
environments identical except for the regex parser's behaviour then
produce different reports, so the regex-tier parser IS invoked,
refuting "the regex-tier parser is never invoked, whatever tier label
the failure carries". -/
theorem c3_counterexample :
    resolve { clip := "", stdin := "", fs := fun _ => none,
              strictParse := fun _ _ => .encrypted "regex",
              regexParse := fun _ _ => .success ⟨false, true, some "c"⟩,
              certOk := fun _ => true } "xml" "d" =
      .ok { errors := [fallbackWarning "regex", encryptedMsg], validSaml := false,
            parserUsed := "regex", saml := some (some ⟨false, true, some "c"⟩),
            validCert := none, cert := none } ∧
    resolve { clip := "", stdin := "", fs := fun _ => none,
              strictParse := fun _ _ => .encrypted "regex",
              regexParse := fun _ _ => .isARequest "x",
              certOk := fun _ => true } "xml" "d" =
      .ok { errors := [fallbackWarning "regex", encryptedMsg], validSaml := false,
            parserUsed := "regex", saml := some none,
            validCert := none, cert := none } ∧
    resolve { clip := "", stdin := "", fs := fun _ => none,
              strictParse := fun _ _ => .encrypted "regex",
              regexParse := fun _ _ => .success ⟨false, true, some "c"⟩,
              certOk := fun _ => true } "xml" "d" ≠
    resolve { clip := "", stdin := "", fs := fun _ => none,
              strictParse := fun _ _ => .encrypted "regex",
              regexParse := fun _ _ => .isARequest "x",
              certOk := fun _ => true } "xml" "d" :=
  ⟨by decide, by decide, by decide⟩

/-- C3 amended: when the standard parser fails with the encrypted or
is-a-request condition and the exception's tier label is NOT `"regex"`,
the orchestrator terminates with that outcome immediately and the regex
parser is never invoked (the result is independent of its behaviour);
with label `"regex"` the regex parser is invoked again, as the
counterexample shows. -/
theorem c3_amended_no_retry_unless_regex_label (e1 e2 : Env) (it raw p : String)
    (hstrict : e1.strictParse = e2.strictParse) (hcert : e1.certOk = e2.certOk)
    (hst : e1.strictParse it raw = .encrypted p ∨ e1.strictParse it raw = .isARequest p)
    (hp : p ≠ "regex") :
    resolve e1 it raw = resolve e2 it raw ∧
    ∀ r, resolve e1 it raw = .ok r →
      saml_is_valid r = false ∧ r.saml = some none ∧
      (encryptedMsg ∈ r.errors ∨ isARequestMsg ∈ r.errors) := by
  have hpb : ¬((p == "regex") = true) := fun hc => hp (eq_of_beq hc)
  by_cases hit : it ∈ VALID_INPUT_TYPES
  · rcases hst with hst | hst
    · have h1 : resolve e1 it raw = classify e1.certOk p (some none) false true false := by
        unfold resolve
        rw [parseRawData_eq_ok e1.strictParse raw hit, hst]
        dsimp only
        unfold retryStep
        rw [if_neg hpb]
      have h2 : resolve e2 it raw = classify e2.certOk p (some none) false true false := by
        unfold resolve
        rw [parseRawData_eq_ok e2.strictParse raw hit, ← hstrict, hst]
        dsimp only
        unfold retryStep
        rw [if_neg hpb]
      refine ⟨by rw [h1, h2, hcert], ?_⟩
      intro r hr
      rw [h1] at hr
      rcases classify_cases e1.certOk p (some none) false true false with
        ⟨_, hc⟩ | ⟨he, _, _⟩ | ⟨he, _, _⟩ | ⟨he, _, _, _⟩
      · rw [hr] at hc
        have h3 := Except.ok.inj hc
        subst h3
        exact ⟨rfl, rfl, Or.inl (by simp)⟩
      · cases he
      · cases he
      · cases he
    · have h1 : resolve e1 it raw = classify e1.certOk p (some none) false false true := by
        unfold resolve
        rw [parseRawData_eq_ok e1.strictParse raw hit, hst]
        dsimp only
        unfold retryStep
        rw [if_neg hpb]
      have h2 : resolve e2 it raw = classify e2.certOk p (some none) false false true := by
        unfold resolve
        rw [parseRawData_eq_ok e2.strictParse raw hit, ← hstrict, hst]
        dsimp only
        unfold retryStep
        rw [if_neg hpb]
      refine ⟨by rw [h1, h2, hcert], ?_⟩
      intro r hr
      rw [h1] at hr
      rcases classify_cases e1.certOk p (some none) false false true with
        ⟨he, _⟩ | ⟨_, _, hc⟩ | ⟨_, hq, _⟩ | ⟨_, hq, _, _⟩
      · cases he
      · rw [hr] at hc
        have h3 := Except.ok.inj hc
        subst h3
        exact ⟨rfl, rfl, Or.inr (by simp)⟩
      · cases hq
      · cases hq
  · have h1 := parseRawData_invalid e1.strictParse raw hit
    have h2 := parseRawData_invalid e2.strictParse raw hit
    constructor
    · unfold resolve
      rw [h1, h2]
    · intro r hr
      unfold resolve at hr
      rw [h1] at hr
      cases hr

/-- Witness for C3 (amended): with the non-"regex" label `"strict"`,
two environments differing only in the regex parser produce the same
report. -/
theorem c3_witness :
    resolve { clip := "", stdin := "", fs := fun _ => none,
              strictParse := fun _ _ => .encrypted "strict",
              regexParse := fun _ _ => .success ⟨false, true, some "c"⟩,
              certOk := fun _ => true } "xml" "d" =
    resolve { clip := "", stdin := "", fs := fun _ => none,
              strictParse := fun _ _ => .encrypted "strict",
              regexParse := fun _ _ => .isARequest "x",
              certOk := fun _ => true } "xml" "d" :=
  (c3_amended_no_retry_unless_regex_label
    { clip := "", stdin := "", fs := fun _ => none,
      strictParse := fun _ _ => .encrypted "strict",
      regexParse := fun _ _ => .success ⟨false, true, some "c"⟩,
      certOk := fun _ => true }
    { clip := "", stdin := "", fs := fun _ => none,
      strictParse := fun _ _ => .encrypted "strict",
      regexParse := fun _ _ => .isARequest "x",
      certOk := fun _ => true }
    "xml" "d" "strict" rfl rfl (Or.inl rfl) (by decide)).1
